import Mathlib

/-!
# seruman/chatgpt: the streaming conversation client

A shallow embedding of `chatgpt/client.go` and `chatgpt/prompt.go`.

* Byte slices are lists of characters: the loop only tests a line for
  emptiness, for the ASCII prefix `data: ` and for equality with `[DONE]`.
* A Go `error` is a value of `Error`; `nil` is `none`.
* The standard library and the network are inputs: `Lib` holds the pure
  library functions (JSON, URL and time parsing), `World` holds what one call
  observes of the outside (the clock, the HTTP round trips, the next UUID).
* `bufio.Scanner` over a response body is given by what it produces: the lines
  `Scan` yields, and the value of `Err()` once `Scan` has returned false.
* A handler closure that mutates captured variables is a function on the
  captured state, `Handler σ`.
* The requests handed to `httpClient.Do` are collected in a log, `sent`.
* With `debug` set, `Client.do` also dumps the exchange to standard error, and
  the dump reads the response body through and puts it back; standard error is
  not part of the model, and a `Body` is the body as the caller of `Client.do`
  reads it.
-/

namespace chatgpt

/-! ## Constants (client.go, lines 16-29) -/

def ActionNext : String := "next"
def ModelTextDavinci002Render : String := "text-davinci-002-render"
def RoleUser : String := "user"
def ContentTypeText : String := "text"

def defaultUserAgent : String :=
  "Mozilla/5.0 (Macintosh; Intel Mac OS X 10_15_7) AppleWebKit/537.36 (KHTML, like Gecko) Chrome/108.0.0.0 Safari/537.36"
def apiAddr : String := "https://chat.openai.com/api"
def backendAPIAddr : String := "https://chat.openai.com/backend-api"
def cookieSessionToken : String := "__Secure-next-auth.session-token"

def conversationEOF : List Char := "[DONE]".toList
def sseDataPrefix : List Char := "data: ".toList

/-- The status `http.StatusOK`. -/
def StatusOK : Nat := 200

/-! ## Data (client.go, lines 259-294; prompt.go, lines 9-19) -/

/-- A Go `error`. `unexpectedStatusCode n` is
`fmt.Errorf("unexpected status code: %d", n)`; every other error comes out of
a library call and is carried by its text. -/
inductive Error where
  | unexpectedStatusCode (code : Nat)
  | lib (msg : String)
deriving DecidableEq, Repr

structure AuthSessionResponse where
  Expires : String
  AccessToken : String
deriving DecidableEq, Repr

structure Content where
  ContentType : String := ""
  Parts : List String := []
deriving DecidableEq, Repr

structure Message where
  ID : String := ""
  Role : String := ""
  Content : Content := {}
deriving DecidableEq, Repr

structure ConversationRequest where
  Action : String := ""
  Messages : List Message := []
  ConversationID : String := ""
  ParentMessageID : String := ""
  Model : String := ""
deriving DecidableEq, Repr

structure ConversationResponse where
  Message : Message := {}
  ConversationID : String := ""
  Error : String := ""
deriving DecidableEq, Repr

/-- An instant (`time.Time`), as a count of clock ticks; the zero `time.Time`
is `0`. -/
abbrev Time := Int

structure accessToken where
  value : String := ""
  expires : Time := 0
deriving DecidableEq, Repr

structure Client where
  apiAddr : String
  backendAPIAddr : String
  userAgent : String
  autoRefresh : Bool
  sessionToken : String
  accessToken : accessToken := {}
  debug : Bool := false
deriving DecidableEq, Repr

/-- The state a `ConversationStreamHandler` closure captures is `σ`; one call
`handler(resp, err)` takes the captured state to the next. -/
abbrev Handler (σ : Type) := σ → ConversationResponse → Option Error → σ

structure State where
  ConversationID : String
  ParentMessageID : String
deriving DecidableEq, Repr

/-- The struct `Prompt`; `previous` is `nil` until the first commit. -/
structure Prompt where
  client : Client
  current : State
  previous : Option State := none
deriving DecidableEq, Repr

/-! ## The outside of the program -/

/-- An `*http.Request` as the client builds it: method, URL, the headers it
sets, the cookie it adds, and the value whose JSON encoding is the body. -/
structure Request where
  method : String
  url : String
  userAgent : String
  authorization : Option String := none
  contentType : Option String := none
  cookie : Option (String × String) := none
  body : Option ConversationRequest := none
deriving DecidableEq, Repr

/-- A response body as a `bufio.Scanner` reads it after `Client.do` has
returned: the lines `Scan` yields, and the value of `Err()` after the last of
them (`some` for a failed read, a cancelled context, a line longer than the
scanner's buffer). -/
structure Body where
  lines : List (List Char) := []
  readErr : Option Error := none
deriving DecidableEq, Repr

structure Response where
  StatusCode : Nat
  body : Body := {}
deriving DecidableEq, Repr

/-- The pure library functions the client calls. -/
structure Lib where
  /-- The call `json.Unmarshal(data, &cr)` on a zero `cr`: the value left in
  `cr` and the error. -/
  unmarshal : List Char → ConversationResponse × Option Error
  /-- The error of `json.NewEncoder(&buf).Encode(cq)`. -/
  encodeErr : ConversationRequest → Option Error
  /-- The call `json.NewDecoder(resp.Body).Decode(&authResponse)`. -/
  decodeAuth : Body → Except Error AuthSessionResponse
  /-- The call `time.Parse(time.RFC3339, s)`. -/
  parseTime : String → Except Error Time
  /-- The call `url.JoinPath(base, elems...)`, its error dropped. -/
  joinPath : String → List String → String
  /-- The error of `http.NewRequestWithContext(ctx, method, url, body)`. -/
  newRequestErr : String → String → Option Error

/-- What one call observes of the outside. -/
structure World where
  /-- The value of `time.Now()`. -/
  now : Time
  /-- The call `c.httpClient.Do(req)`. -/
  httpDo : Request → Except Error Response
  /-- The value of `uuid.NewString()`. -/
  uuid : String

/-! ## client.go -/

abbrev ClientOption := Client → Client

def WithUserAgent (userAgent : String) : ClientOption :=
  fun c => { c with userAgent := userAgent }

def WithDebug : ClientOption :=
  fun c => { c with debug := true }

def WithAutoRefresh : ClientOption :=
  fun c => { c with autoRefresh := true }

def WithAddr (addr : String) : ClientOption :=
  fun c => { c with apiAddr := addr, backendAPIAddr := addr }

def NewClient (sessionToken : String) (options : List ClientOption) : Client :=
  options.foldl (fun c option => option c)
    { apiAddr := apiAddr
      backendAPIAddr := backendAPIAddr
      userAgent := defaultUserAgent
      autoRefresh := true
      sessionToken := sessionToken }

/-- The method `accessToken.isExpired`: `time.Now().After(a.expires)`. -/
def accessToken.isExpired (a : accessToken) (w : World) : Bool :=
  decide (a.expires < w.now)

/-- The method `Client.do`: the round trip, and its request added to the log. -/
def Client.do (_c : Client) (w : World) (req : Request) :
    List Request × Except Error Response :=
  ([req], w.httpDo req)

/-- The request `Client.doAuthSession` builds. -/
def Client.authRequest (lib : Lib) (c : Client) : Request :=
  { method := "GET"
    url := lib.joinPath c.apiAddr ["auth", "session"]
    userAgent := c.userAgent
    cookie := some (cookieSessionToken, c.sessionToken) }

def Client.doAuthSession (lib : Lib) (c : Client) (w : World) :
    List Request × Except Error AuthSessionResponse :=
  let url := lib.joinPath c.apiAddr ["auth", "session"]
  match lib.newRequestErr "GET" url with
  | some err => ([], .error err)
  | none =>
    match c.do w (c.authRequest lib) with
    | (sent, .error err) => (sent, .error err)
    | (sent, .ok resp) =>
      if resp.StatusCode ≠ StatusOK then
        (sent, .error (Error.unexpectedStatusCode resp.StatusCode))
      else
        match lib.decodeAuth resp.body with
        | .error err => (sent, .error err)
        | .ok authResponse => (sent, .ok authResponse)

/-- The outcome of a call on the client that returns only an `error`: the
client afterwards, the requests sent, the error. -/
structure AuthResult where
  client : Client
  sent : List Request
  err : Option Error
deriving DecidableEq, Repr

def Client.auth (lib : Lib) (c : Client) (w : World) : AuthResult :=
  match c.doAuthSession lib w with
  | (sent, .error err) => { client := c, sent := sent, err := some err }
  | (sent, .ok resp) =>
    match lib.parseTime resp.Expires with
    | .error err => { client := c, sent := sent, err := some err }
    | .ok expires =>
      { client := { c with accessToken := { value := resp.AccessToken, expires := expires } }
        sent := sent
        err := none }

def Client.Auth (lib : Lib) (c : Client) (w : World) : AuthResult :=
  c.auth lib w

def Client.authIfExpired (lib : Lib) (c : Client) (w : World) : AuthResult :=
  if c.accessToken.value = "" ∨ c.accessToken.isExpired w = true then
    c.auth lib w
  else
    { client := c, sent := [], err := none }

/-- The scanner loop of `Client.doConversation` (lines 145-167) over the lines
the scanner yields: the handler state afterwards, and whether the loop left
through `return nil` at the `[DONE]` payload. -/
def scanLoop {σ : Type} (lib : Lib) (handler : Handler σ) :
    List (List Char) → σ → σ × Bool
  | [], s => (s, false)
  | line :: rest, s =>
    if line.length = 0 then
      scanLoop lib handler rest s
    else if sseDataPrefix.isPrefixOf line = true then
      let data := line.drop sseDataPrefix.length
      if data = conversationEOF then
        (s, true)
      else
        let r := lib.unmarshal data
        scanLoop lib handler rest (handler s r.1 r.2)
    else
      scanLoop lib handler rest s

/-- The outcome of `Client.doConversation`: the client afterwards, the
requests sent, the state of the handler after its calls, the error. -/
structure ConvResult (σ : Type) where
  client : Client
  sent : List Request
  handlerState : σ
  err : Option Error

/-- The request `Client.doConversation` builds. -/
def Client.conversationRequest (lib : Lib) (c : Client) (cq : ConversationRequest) : Request :=
  { method := "POST"
    url := lib.joinPath c.backendAPIAddr ["conversation"]
    userAgent := c.userAgent
    authorization := some ("Bearer " ++ c.accessToken.value)
    contentType := some "application/json"
    body := some cq }

/-- Lines 110-136 of `Client.doConversation`: the token check, the encoding of
the request and the round trip; an early `return err` is `.error`. -/
def Client.roundTrip (lib : Lib) (c : Client) (w : World) (cq : ConversationRequest) :
    Client × List Request × Except Error Response :=
  let a : AuthResult :=
    if c.autoRefresh = true then c.authIfExpired lib w
    else { client := c, sent := [], err := none }
  match a.err with
  | some err => (a.client, a.sent, .error err)
  | none =>
    let c := a.client
    match lib.encodeErr cq with
    | some err => (c, a.sent, .error err)
    | none =>
      let url := lib.joinPath c.backendAPIAddr ["conversation"]
      match lib.newRequestErr "POST" url with
      | some err => (c, a.sent, .error err)
      | none =>
        match c.do w (c.conversationRequest lib cq) with
        | (sent, .error err) => (c, a.sent ++ sent, .error err)
        | (sent, .ok resp) => (c, a.sent ++ sent, .ok resp)

/-- Lines 139-173 of `Client.doConversation`: the status check, the scanner
loop and the scanner's error. -/
def readStream {σ : Type} (lib : Lib) (resp : Response) (handler : Handler σ) (s : σ) :
    σ × Option Error :=
  if resp.StatusCode ≠ StatusOK then
    (s, some (Error.unexpectedStatusCode resp.StatusCode))
  else
    match scanLoop lib handler resp.body.lines s with
    | (s, true) => (s, none)
    | (s, false) =>
      match resp.body.readErr with
      | some err => (s, some err)
      | none => (s, none)

def Client.doConversation {σ : Type} (lib : Lib) (c : Client) (w : World)
    (cq : ConversationRequest) (handler : Handler σ) (s : σ) : ConvResult σ :=
  match c.roundTrip lib w cq with
  | (c, sent, .error err) => { client := c, sent := sent, handlerState := s, err := some err }
  | (c, sent, .ok resp) =>
    let r := readStream lib resp handler s
    { client := c, sent := sent, handlerState := r.1, err := r.2 }

def Client.Conversation {σ : Type} (lib : Lib) (c : Client) (w : World)
    (cq : ConversationRequest) (handler : Handler σ) (s : σ) : ConvResult σ :=
  c.doConversation lib w cq handler s

/-! ## prompt.go -/

def NewPrompt (client : Client) (w : World) : Prompt :=
  { client := client
    current := { ConversationID := "", ParentMessageID := w.uuid } }

/-- The variables the closure of `Prompt.streamNext` captures: `state`,
`streamErr`, and what the caller's handler captures. -/
structure Captured (σ : Type) where
  state : State
  streamErr : Option Error
  inner : σ

/-- The closure of `Prompt.streamNext` (lines 68-78). -/
def streamHandler {σ : Type} (handler : Handler σ) : Handler (Captured σ) :=
  fun k resp err =>
    let k := { k with streamErr := err }
    let k := { k with inner := handler k.inner resp err }
    if err = none then
      { k with state := { ConversationID := resp.ConversationID
                          ParentMessageID := resp.Message.ID } }
    else k

/-- The `ConversationRequest` of `Prompt.streamNext` (lines 52-67). -/
def Prompt.request (p : Prompt) (w : World) (prompt : String) : ConversationRequest :=
  { Action := ActionNext
    Messages := [{ ID := w.uuid
                   Role := RoleUser
                   Content := { ContentType := ContentTypeText, Parts := [prompt] } }]
    ParentMessageID := p.current.ParentMessageID
    ConversationID := p.current.ConversationID
    Model := ModelTextDavinci002Render }

/-- The outcome of `Prompt.streamNext`: the prompt afterwards, the requests
sent, the state of the caller's handler, the error. -/
structure TurnResult (σ : Type) where
  prompt : Prompt
  sent : List Request
  handlerState : σ
  err : Option Error

def Prompt.streamNext {σ : Type} (lib : Lib) (p : Prompt) (w : World) (prompt : String)
    (handler : Handler σ) (s : σ) : TurnResult σ :=
  let r := p.client.Conversation lib w (p.request w prompt) (streamHandler handler)
    { state := p.current, streamErr := none, inner := s }
  let p := { p with client := r.client }
  match r.err with
  | some err => { prompt := p, sent := r.sent, handlerState := r.handlerState.inner, err := some err }
  | none =>
    match r.handlerState.streamErr with
    | some err =>
      { prompt := p, sent := r.sent, handlerState := r.handlerState.inner, err := some err }
    | none =>
      { prompt := { p with previous := some p.current, current := r.handlerState.state }
        sent := r.sent
        handlerState := r.handlerState.inner
        err := none }

/-- The closure of `Prompt.Next` (lines 33-39); it captures `message`. -/
def nextHandler : Handler String :=
  fun message resp err =>
    if err = none then
      match resp.Message.Content.Parts with
      | part :: _ => part
      | [] => message
    else message

/-- The method `Prompt.Next`: the prompt afterwards, the requests sent, and
the pair it returns. -/
def Prompt.Next (lib : Lib) (p : Prompt) (w : World) (prompt : String) :
    Prompt × List Request × String × Option Error :=
  let r := p.streamNext lib w prompt nextHandler ""
  match r.err with
  | some err => (r.prompt, r.sent, "", some err)
  | none => (r.prompt, r.sent, r.handlerState, none)

/-- The handler that records its calls in order. -/
def record : Handler (List (ConversationResponse × Option Error)) :=
  fun calls resp err => calls ++ [(resp, err)]

/-- The handler calls of the scanner loop over the given lines, in order. -/
def delivered (lib : Lib) (lines : List (List Char)) :
    List (ConversationResponse × Option Error) :=
  (scanLoop lib record lines []).1

/-- The application of a handler to one recorded call. -/
def applyCall {σ : Type} (handler : Handler σ) (s : σ)
    (call : ConversationResponse × Option Error) : σ :=
  handler s call.1 call.2

/-- The state carried by a successfully decoded event. -/
def stateOf (resp : ConversationResponse) : State :=
  { ConversationID := resp.ConversationID, ParentMessageID := resp.Message.ID }

/-- A line the scanner loop passes over: empty, or without the marker. -/
def ignorable (line : List Char) : Prop :=
  line = [] ∨ sseDataPrefix.isPrefixOf line = false

instance (line : List Char) : Decidable (ignorable line) := by
  unfold ignorable; infer_instance

/-- The state of the last successfully decoded call, or the given one. -/
def lastGood (calls : List (ConversationResponse × Option Error)) (s0 : State) : State :=
  match (calls.filter (fun call => call.2 = none)).getLast? with
  | some call => stateOf call.1
  | none => s0

/-- The error of the last call, `none` without a call. -/
def lastErr (calls : List (ConversationResponse × Option Error)) : Option Error :=
  match calls.getLast? with
  | some call => call.2
  | none => none

/-- Whether the scanner loop over the given lines leaves at a `[DONE]` payload. -/
def sawDone (lib : Lib) (lines : List (List Char)) : Bool :=
  (scanLoop lib record lines []).2

/-! ## Concrete streams and servers -/

/-- The event with conversation `c1`, message `m1` and parts `["hi"]`. -/
def eventHi : ConversationResponse :=
  { Message := { ID := "m1", Role := "assistant", Content := { Parts := ["hi"] } }
    ConversationID := "c1" }

/-- The event with conversation `c1`, message `m2` and no parts. -/
def eventEmpty : ConversationResponse :=
  { Message := { ID := "m2", Role := "assistant" }
    ConversationID := "c1" }

def payloadHi : List Char :=
  "\x7b\"message\":\x7b\"id\":\"m1\",\"role\":\"assistant\",\"content\":\x7b\"parts\":[\"hi\"]\x7d\x7d,\"conversation_id\":\"c1\"\x7d".toList

def payloadEmpty : List Char :=
  "\x7b\"message\":\x7b\"id\":\"m2\",\"role\":\"assistant\"\x7d,\"conversation_id\":\"c1\"\x7d".toList

def payloadBad : List Char := "\x7bnot valid json".toList

def decodeError : Error := Error.lib "invalid character in object key"

def readError : Error := Error.lib "context canceled"

/-- A library whose JSON decoder knows the two payloads above and rejects
every other text. -/
def sampleLib : Lib :=
  { unmarshal := fun data =>
      if data = payloadHi then (eventHi, none)
      else if data = payloadEmpty then (eventEmpty, none)
      else ({}, some decodeError)
    encodeErr := fun _ => none
    decodeAuth := fun _ => .ok { Expires := "2030-01-01T00:00:00Z", AccessToken := "token" }
    parseTime := fun _ => .ok 2000
    joinPath := fun base elems => base ++ "/" ++ "/".intercalate elems
    newRequestErr := fun _ _ => none }

/-- A server that answers the authentication exchange with the given status
and the conversation exchange with status 200 and the given body. -/
def server (authStatus : Nat) (body : Body) (now : Time) : World :=
  { now := now
    httpDo := fun req =>
      if req.method = "GET" then .ok { StatusCode := authStatus }
      else .ok { StatusCode := 200, body := body }
    uuid := "00000000-0000-4000-8000-000000000001" }

def dataLine (payload : List Char) : List Char := sseDataPrefix ++ payload

def doneLine : List Char := sseDataPrefix ++ conversationEOF

/-- A prompt on a fresh client. -/
def freshPrompt : Prompt :=
  NewPrompt (NewClient "session" []) (server 200 {} 1000)

/-- A client that holds a token that expires at instant 2000. -/
def tokenClient : Client :=
  { NewClient "session" [] with accessToken := { value := "token", expires := 2000 } }

/-- The first content part of the last recorded event whose parts list is
non-empty, the empty string when no event has parts. -/
def replyText (calls : List (ConversationResponse × Option Error)) : String :=
  match (calls.filter (fun call => decide (call.1.Message.Content.Parts ≠ []))).getLast? with
  | some call => call.1.Message.Content.Parts.headD ""
  | none => ""

/-- A server whose authentication exchange answers 401 and whose conversation
exchange streams one event and the sentinel. -/
def rejectingServer (now : Time) : World :=
  server 401 { lines := [dataLine payloadHi, doneLine] } now

/-! ## The scanner loop -/

theorem scanLoop_nil {σ : Type} (lib : Lib) (h : Handler σ) (s : σ) :
    scanLoop lib h [] s = (s, false) := rfl

theorem scanLoop_skip {σ : Type} (lib : Lib) (h : Handler σ) (line : List Char)
    (rest : List (List Char)) (s : σ) (hl : ignorable line) :
    scanLoop lib h (line :: rest) s = scanLoop lib h rest s := by
  rcases hl with hl | hl
  · subst hl; simp [scanLoop]
  · by_cases h0 : line.length = 0
    · simp [scanLoop, h0]
    · simp [scanLoop, h0, hl]

theorem scanLoop_done {σ : Type} (lib : Lib) (h : Handler σ)
    (rest : List (List Char)) (s : σ) :
    scanLoop lib h ((sseDataPrefix ++ conversationEOF) :: rest) s = (s, true) := by
  simp [scanLoop, sseDataPrefix, conversationEOF]

theorem scanLoop_data {σ : Type} (lib : Lib) (h : Handler σ) (data : List Char)
    (rest : List (List Char)) (s : σ) (hd : data ≠ conversationEOF) :
    scanLoop lib h ((sseDataPrefix ++ data) :: rest) s
      = scanLoop lib h rest (h s (lib.unmarshal data).1 (lib.unmarshal data).2) := by
  have hp : sseDataPrefix.isPrefixOf (sseDataPrefix ++ data) = true := by
    simp [List.isPrefixOf_iff_prefix]
  have hlen : (sseDataPrefix ++ data).length ≠ 0 := by
    simp [sseDataPrefix]
  rw [scanLoop]
  simp only [hlen, hp, if_true, if_false, List.drop_left, hd]

theorem scanLoop_append {σ : Type} (lib : Lib) (h : Handler σ)
    (xs ys : List (List Char)) (s : σ) :
    scanLoop lib h (xs ++ ys) s
      = if (scanLoop lib h xs s).2 = true then scanLoop lib h xs s
        else scanLoop lib h ys (scanLoop lib h xs s).1 := by
  induction xs generalizing s with
  | nil => simp [scanLoop]
  | cons line rest ih =>
    simp only [List.cons_append, scanLoop]
    split_ifs <;> simp_all

theorem scanLoop_record (lib : Lib) (lines : List (List Char))
    (acc : List (ConversationResponse × Option Error)) :
    scanLoop lib record lines acc
      = (acc ++ (scanLoop lib record lines []).1, (scanLoop lib record lines []).2) := by
  induction lines generalizing acc with
  | nil => simp [scanLoop]
  | cons line rest ih =>
    simp only [scanLoop]
    split_ifs
    · exact ih acc
    · simp
    · rw [ih (record acc _ _), ih (record [] _ _)]
      simp [record]
    · exact ih acc

/-- Any handler's state after the loop is the fold of the handler over the
recorded calls, and the loop leaves at the same place. -/
theorem scanLoop_fold {σ : Type} (lib : Lib) (h : Handler σ)
    (lines : List (List Char)) (s : σ) :
    scanLoop lib h lines s
      = ((delivered lib lines).foldl (applyCall h) s, (scanLoop lib record lines []).2) := by
  unfold delivered
  induction lines generalizing s with
  | nil => simp [scanLoop]
  | cons line rest ih =>
    simp only [scanLoop]
    split_ifs
    · exact ih s
    · simp
    · rw [ih, scanLoop_record lib rest (record [] _ _)]
      simp [record, applyCall]
    · exact ih s

/-! ## The closures of prompt.go -/

theorem streamHandler_fold {σ : Type} (h : Handler σ)
    (calls : List (ConversationResponse × Option Error)) (s0 : State) (s : σ) :
    calls.foldl (applyCall (streamHandler h)) { state := s0, streamErr := none, inner := s }
      = { state := lastGood calls s0
          streamErr := lastErr calls
          inner := calls.foldl (applyCall h) s } := by
  induction calls using List.reverseRecOn with
  | nil => simp [lastGood, lastErr]
  | append_singleton calls call ih =>
    rw [List.foldl_append, ih]
    obtain ⟨resp, err⟩ := call
    cases err with
    | none =>
      simp [applyCall, streamHandler, lastGood, lastErr, List.filter_append, stateOf]
    | some e =>
      simp [applyCall, streamHandler, lastGood, lastErr, List.filter_append]

theorem foldl_record (calls acc : List (ConversationResponse × Option Error)) :
    calls.foldl (applyCall record) acc = acc ++ calls := by
  induction calls generalizing acc with
  | nil => simp
  | cons call calls ih => simp [List.foldl_cons, ih, applyCall, record]

/-! ## One call of doConversation and of streamNext, by the recorded calls -/

theorem readStream_eq {σ : Type} (lib : Lib) (resp : Response) (h : Handler σ) (s : σ) :
    readStream lib resp h s
      = if resp.StatusCode ≠ StatusOK then
          (s, some (Error.unexpectedStatusCode resp.StatusCode))
        else
          ((delivered lib resp.body.lines).foldl (applyCall h) s,
            if sawDone lib resp.body.lines = true then none else resp.body.readErr) := by
  unfold readStream
  split_ifs with hs hd
  · rfl
  · rw [scanLoop_fold]
    unfold sawDone at hd
    simp [hd]
  · rw [scanLoop_fold]
    unfold sawDone at hd
    simp only [Bool.not_eq_true] at hd
    simp only [hd]
    cases resp.body.readErr <;> rfl

theorem doConversation_of_roundTrip_error {σ : Type} (lib : Lib) (c : Client) (w : World)
    (cq : ConversationRequest) (h : Handler σ) (s : σ)
    (c1 : Client) (sent : List Request) (e : Error)
    (hrt : c.roundTrip lib w cq = (c1, sent, .error e)) :
    c.doConversation lib w cq h s
      = { client := c1, sent := sent, handlerState := s, err := some e } := by
  simp [Client.doConversation, hrt]

theorem doConversation_of_roundTrip_ok {σ : Type} (lib : Lib) (c : Client) (w : World)
    (cq : ConversationRequest) (h : Handler σ) (s : σ)
    (c1 : Client) (sent : List Request) (resp : Response)
    (hrt : c.roundTrip lib w cq = (c1, sent, .ok resp)) :
    c.doConversation lib w cq h s
      = { client := c1, sent := sent
          handlerState := (readStream lib resp h s).1, err := (readStream lib resp h s).2 } := by
  simp [Client.doConversation, hrt]

theorem streamNext_of_roundTrip_error {σ : Type} (lib : Lib) (p : Prompt) (w : World)
    (prompt : String) (h : Handler σ) (s : σ)
    (c1 : Client) (sent : List Request) (e : Error)
    (hrt : p.client.roundTrip lib w (p.request w prompt) = (c1, sent, .error e)) :
    p.streamNext lib w prompt h s
      = { prompt := { p with client := c1 }, sent := sent, handlerState := s, err := some e } := by
  simp [Prompt.streamNext, Client.Conversation,
    doConversation_of_roundTrip_error lib _ w _ _ _ c1 sent e hrt]

theorem streamNext_of_roundTrip_ok {σ : Type} (lib : Lib) (p : Prompt) (w : World)
    (prompt : String) (h : Handler σ) (s : σ)
    (c1 : Client) (sent : List Request) (resp : Response)
    (hrt : p.client.roundTrip lib w (p.request w prompt) = (c1, sent, .ok resp)) :
    p.streamNext lib w prompt h s
      = if resp.StatusCode ≠ StatusOK then
          { prompt := { p with client := c1 }, sent := sent, handlerState := s
            err := some (Error.unexpectedStatusCode resp.StatusCode) }
        else
          match (if sawDone lib resp.body.lines = true then none else resp.body.readErr) with
          | some e =>
            { prompt := { p with client := c1 }, sent := sent
              handlerState := (delivered lib resp.body.lines).foldl (applyCall h) s
              err := some e }
          | none =>
            match lastErr (delivered lib resp.body.lines) with
            | some e =>
              { prompt := { p with client := c1 }, sent := sent
                handlerState := (delivered lib resp.body.lines).foldl (applyCall h) s
                err := some e }
            | none =>
              { prompt := { client := c1, previous := some p.current
                            current := lastGood (delivered lib resp.body.lines) p.current }
                sent := sent
                handlerState := (delivered lib resp.body.lines).foldl (applyCall h) s
                err := none } := by
  simp only [Prompt.streamNext, Client.Conversation,
    doConversation_of_roundTrip_ok lib _ w _ _ _ c1 sent resp hrt, readStream_eq]
  split_ifs with hs hd
  · rfl
  · simp only [streamHandler_fold]
  · simp only [streamHandler_fold]

theorem scanLoop_events {σ : Type} (lib : Lib) (h : Handler σ)
    (payloads : List (List Char)) (rest : List (List Char)) (s : σ)
    (hp : ∀ d ∈ payloads, d ≠ conversationEOF) :
    scanLoop lib h (payloads.map dataLine ++ doneLine :: rest) s
      = ((payloads.map lib.unmarshal).foldl (applyCall h) s, true) := by
  induction payloads generalizing s with
  | nil => simpa [doneLine] using scanLoop_done lib h rest s
  | cons d ds ih =>
    have hd : d ≠ conversationEOF := hp d (List.mem_cons_self d ds)
    have hds : ∀ x ∈ ds, x ≠ conversationEOF := fun x hx => hp x (List.mem_cons_of_mem d hx)
    simp only [List.map_cons, List.cons_append, dataLine, List.foldl_cons]
    rw [scanLoop_data lib h d _ s hd]
    exact ih _ hds

theorem scanLoop_insert {σ : Type} (lib : Lib) (h : Handler σ)
    (before after : List (List Char)) (line : List Char) (s : σ) (hl : ignorable line) :
    scanLoop lib h (before ++ line :: after) s = scanLoop lib h (before ++ after) s := by
  rw [scanLoop_append, scanLoop_append lib h before after, scanLoop_skip lib h line after _ hl]

theorem scanLoop_append_done {σ : Type} (lib : Lib) (h : Handler σ)
    (lines : List (List Char)) (s : σ) :
    scanLoop lib h (lines ++ [doneLine]) s = ((scanLoop lib h lines s).1, true) := by
  rw [scanLoop_append]
  split_ifs with hd
  · exact Prod.ext rfl hd
  · simpa [doneLine] using scanLoop_done lib h [] (scanLoop lib h lines s).1

theorem delivered_append_done (lib : Lib) (lines : List (List Char)) :
    delivered lib (lines ++ [doneLine]) = delivered lib lines := by
  unfold delivered
  rw [scanLoop_append_done]

theorem sawDone_append_done (lib : Lib) (lines : List (List Char)) :
    sawDone lib (lines ++ [doneLine]) = true := by
  unfold sawDone
  rw [scanLoop_append_done]

theorem lastErr_of_all_good (calls : List (ConversationResponse × Option Error))
    (hgood : ∀ call ∈ calls, call.2 = none) : lastErr calls = none := by
  unfold lastErr
  cases hl : calls.getLast? with
  | none => rfl
  | some call => exact hgood call (List.mem_of_getLast?_eq_some hl)

theorem lastGood_of_all_good (calls : List (ConversationResponse × Option Error))
    (s0 : State) (hgood : ∀ call ∈ calls, call.2 = none) :
    lastGood calls s0
      = match calls.getLast? with
        | some call => stateOf call.1
        | none => s0 := by
  unfold lastGood
  rw [List.filter_eq_self.mpr (fun call hc => by simpa using hgood call hc)]

theorem foldl_nextHandler (calls : List (ConversationResponse × Option Error))
    (hgood : ∀ call ∈ calls, call.2 = none) :
    calls.foldl (applyCall nextHandler) "" = replyText calls := by
  unfold replyText
  induction calls using List.reverseRecOn with
  | nil => rfl
  | append_singleton calls call ih =>
    have hcall : call.2 = none := hgood call (by simp)
    have hrest : ∀ x ∈ calls, x.2 = none := fun x hx => hgood x (by simp [hx])
    rw [List.foldl_append, ih hrest, List.filter_append]
    obtain ⟨resp, err⟩ := call
    simp only at hcall
    subst hcall
    cases hparts : resp.Message.Content.Parts with
    | nil => simp [applyCall, nextHandler, hparts]
    | cons part parts => simp [applyCall, nextHandler, hparts]

theorem doAuthSession_sent (lib : Lib) (c : Client) (w : World) :
    (c.doAuthSession lib w).1 = [] ∨ (c.doAuthSession lib w).1 = [c.authRequest lib] := by
  cases hn : lib.newRequestErr "GET" (lib.joinPath c.apiAddr ["auth", "session"]) with
  | some e => left; simp [Client.doAuthSession, hn]
  | none =>
    right
    cases hd : w.httpDo (c.authRequest lib) with
    | error e => simp [Client.doAuthSession, Client.do, hn, hd]
    | ok resp =>
      by_cases hs : resp.StatusCode = StatusOK
      · cases hdec : lib.decodeAuth resp.body <;>
          simp [Client.doAuthSession, Client.do, hn, hd, hs, hdec]
      · simp [Client.doAuthSession, Client.do, hn, hd, hs]

theorem auth_sent (lib : Lib) (c : Client) (w : World) :
    (c.auth lib w).sent = (c.doAuthSession lib w).1 := by
  unfold Client.auth
  rcases c.doAuthSession lib w with ⟨sent, e | r⟩
  · rfl
  · cases hp : lib.parseTime r.Expires <;> simp [hp]

theorem authIfExpired_sent_body (lib : Lib) (c : Client) (w : World)
    (r : Request) (hr : r ∈ (c.authIfExpired lib w).sent) : r.body = none := by
  unfold Client.authIfExpired at hr
  split_ifs at hr
  · rw [auth_sent] at hr
    rcases doAuthSession_sent lib c w with h | h
    · rw [h] at hr; exact absurd hr (List.not_mem_nil r)
    · rw [h, List.mem_singleton] at hr; rw [hr]; rfl
  · exact absurd hr (List.not_mem_nil r)

/-- Every request with a body that a round trip sends carries the given
`ConversationRequest`. -/
theorem roundTrip_sent_body (lib : Lib) (c : Client) (w : World) (cq : ConversationRequest)
    (r : Request) (hr : r ∈ (c.roundTrip lib w cq).2.1) (q : ConversationRequest)
    (hq : r.body = some q) : q = cq := by
  have key : ∀ a : AuthResult, (∀ x ∈ a.sent, x.body = none) →
      r ∈ (match a.err with
        | some err => (a.client, a.sent, Except.error err)
        | none =>
          match lib.encodeErr cq with
          | some err => (a.client, a.sent, Except.error err)
          | none =>
            match lib.newRequestErr "POST" (lib.joinPath a.client.backendAPIAddr ["conversation"]) with
            | some err => (a.client, a.sent, Except.error err)
            | none =>
              match a.client.do w (a.client.conversationRequest lib cq) with
              | (sent, Except.error err) => (a.client, a.sent ++ sent, Except.error err)
              | (sent, Except.ok resp) => (a.client, a.sent ++ sent, Except.ok resp)).2.1 →
      q = cq := by
    intro a ha hmem
    have hnone : r ∉ a.sent := fun hin => by
      rw [ha r hin] at hq; exact absurd hq (by simp)
    cases h1 : a.err with
    | some e => rw [h1] at hmem; exact absurd hmem hnone
    | none =>
      rw [h1] at hmem
      cases h2 : lib.encodeErr cq with
      | some e => rw [h2] at hmem; exact absurd hmem hnone
      | none =>
        rw [h2] at hmem
        cases h3 : lib.newRequestErr "POST" (lib.joinPath a.client.backendAPIAddr ["conversation"]) with
        | some e => rw [h3] at hmem; exact absurd hmem hnone
        | none =>
          rw [h3] at hmem
          unfold Client.do at hmem
          have hin : r ∈ a.sent ++ [a.client.conversationRequest lib cq] := by
            cases h4 : w.httpDo (a.client.conversationRequest lib cq) <;>
              (rw [h4] at hmem; exact hmem)
          rcases List.mem_append.mp hin with hin | hin
          · exact absurd hin hnone
          · rw [List.mem_singleton] at hin
            rw [hin] at hq
            exact (Option.some.inj hq).symm
  unfold Client.roundTrip at hr
  by_cases hauto : c.autoRefresh = true
  · exact key (c.authIfExpired lib w) (authIfExpired_sent_body lib c w) (by simpa [hauto] using hr)
  · exact key { client := c, sent := [], err := none } (fun x hx => absurd hx (List.not_mem_nil x))
      (by simpa [hauto] using hr)

theorem streamNext_sent {σ : Type} (lib : Lib) (p : Prompt) (w : World)
    (prompt : String) (h : Handler σ) (s : σ) :
    (p.streamNext lib w prompt h s).sent
      = (p.client.roundTrip lib w (p.request w prompt)).2.1 := by
  rcases hrt : p.client.roundTrip lib w (p.request w prompt) with ⟨c1, sent, e | resp⟩
  · rw [streamNext_of_roundTrip_error lib p w prompt h s c1 sent e hrt]
  · rw [streamNext_of_roundTrip_ok lib p w prompt h s c1 sent resp hrt]
    by_cases hs : resp.StatusCode ≠ StatusOK
    · simp [hs]
    · cases hd : sawDone lib resp.body.lines <;> cases hre : resp.body.readErr <;>
        cases hle : lastErr (delivered lib resp.body.lines) <;> simp_all

theorem doAuthSession_sent_of_built (lib : Lib) (c : Client) (w : World)
    (hn : lib.newRequestErr "GET" (lib.joinPath c.apiAddr ["auth", "session"]) = none) :
    (c.doAuthSession lib w).1 = [c.authRequest lib] := by
  cases hd : w.httpDo (c.authRequest lib) with
  | error e => simp [Client.doAuthSession, Client.do, hn, hd]
  | ok resp =>
    by_cases hs : resp.StatusCode = StatusOK
    · cases hdec : lib.decodeAuth resp.body <;>
        simp [Client.doAuthSession, Client.do, hn, hd, hs, hdec]
    · simp [Client.doAuthSession, Client.do, hn, hd, hs]

/-- A call of `auth` never looks like no call: it sends a request or returns
an error. -/
theorem auth_ne_idle (lib : Lib) (c : Client) (w : World) :
    c.auth lib w ≠ { client := c, sent := [], err := none } := by
  intro heq
  have hsent : (c.auth lib w).sent = [] := by rw [heq]
  have herr : (c.auth lib w).err = none := by rw [heq]
  cases hn : lib.newRequestErr "GET" (lib.joinPath c.apiAddr ["auth", "session"]) with
  | some e =>
    simp [Client.auth, Client.doAuthSession, hn] at herr
  | none =>
    rw [auth_sent, doAuthSession_sent_of_built lib c w hn] at hsent
    exact absurd hsent (by simp)

theorem auth_of_status (lib : Lib) (c : Client) (w : World) (resp : Response)
    (hn : lib.newRequestErr "GET" (lib.joinPath c.apiAddr ["auth", "session"]) = none)
    (hdo : w.httpDo (c.authRequest lib) = .ok resp)
    (hst : resp.StatusCode ≠ StatusOK) :
    c.auth lib w
      = { client := c, sent := [c.authRequest lib]
          err := some (Error.unexpectedStatusCode resp.StatusCode) } := by
  simp [Client.auth, Client.doAuthSession, Client.do, hn, hdo, hst]

theorem authIfExpired_of_due (lib : Lib) (c : Client) (w : World)
    (hc : c.accessToken.value = "" ∨ c.accessToken.expires < w.now) :
    c.authIfExpired lib w = c.auth lib w := by
  simp only [Client.authIfExpired, accessToken.isExpired, decide_eq_true_eq, hc, if_true]

theorem authIfExpired_of_not_due (lib : Lib) (c : Client) (w : World)
    (hc : ¬ (c.accessToken.value = "" ∨ c.accessToken.expires < w.now)) :
    c.authIfExpired lib w = { client := c, sent := [], err := none } := by
  simp only [Client.authIfExpired, accessToken.isExpired, decide_eq_true_eq, hc, if_false]

/-! ## The claims -/

/-- C3. When `Prompt.streamNext` returns an error, whatever its source, the
prompt's current state (and its previous state) is what it was before the
call, also when the handler has already run for earlier events. -/
theorem streamNext_error_keeps_state {σ : Type} (lib : Lib) (p : Prompt) (w : World)
    (prompt : String) (h : Handler σ) (s : σ)
    (herr : (p.streamNext lib w prompt h s).err ≠ none) :
    (p.streamNext lib w prompt h s).prompt.current = p.current
      ∧ (p.streamNext lib w prompt h s).prompt.previous = p.previous := by
  rcases hrt : p.client.roundTrip lib w (p.request w prompt) with ⟨c1, sent, e | resp⟩
  · rw [streamNext_of_roundTrip_error lib p w prompt h s c1 sent e hrt]
    exact ⟨rfl, rfl⟩
  · rw [streamNext_of_roundTrip_ok lib p w prompt h s c1 sent resp hrt] at herr ⊢
    by_cases hs : resp.StatusCode ≠ StatusOK
    · simp [hs]
    · cases hd : sawDone lib resp.body.lines <;> cases hre : resp.body.readErr <;>
        cases hle : lastErr (delivered lib resp.body.lines) <;> simp_all

theorem streamNext_error_keeps_state_witness :
    (freshPrompt.streamNext sampleLib
        (server 200 { lines := [dataLine payloadHi, dataLine payloadBad, doneLine] } 1000)
        "hello" record []).handlerState = [(eventHi, none), ({}, some decodeError)]
      ∧ (freshPrompt.streamNext sampleLib
        (server 200 { lines := [dataLine payloadHi, dataLine payloadBad, doneLine] } 1000)
        "hello" record []).prompt.current = freshPrompt.current
      ∧ (freshPrompt.streamNext sampleLib
        (server 200 { lines := [dataLine payloadHi, dataLine payloadBad, doneLine] } 1000)
        "hello" record []).prompt.previous = freshPrompt.previous :=
  ⟨by decide, streamNext_error_keeps_state sampleLib freshPrompt
      (server 200 { lines := [dataLine payloadHi, dataLine payloadBad, doneLine] } 1000)
      "hello" record [] (by decide)⟩

/-- C4. On a stream of `k` events, each on its own `data: ` line, then the
`data: [DONE]` line, then any further lines, `Client.doConversation` calls the
handler exactly on the `k` decoded events, in their order, and returns no error,
whatever follows the sentinel (further lines, a failed read). -/
theorem doConversation_delivers_in_order {σ : Type} (lib : Lib) (c : Client) (w : World)
    (cq : ConversationRequest) (h : Handler σ) (s : σ)
    (c1 : Client) (sent : List Request) (resp : Response)
    (payloads : List (List Char)) (rest : List (List Char))
    (hrt : c.roundTrip lib w cq = (c1, sent, .ok resp))
    (hs : resp.StatusCode = StatusOK)
    (hl : resp.body.lines = payloads.map dataLine ++ doneLine :: rest)
    (hp : ∀ d ∈ payloads, d ≠ conversationEOF) :
    (c.doConversation lib w cq record []).handlerState = payloads.map lib.unmarshal
      ∧ ((c.doConversation lib w cq record []).handlerState).length = payloads.length
      ∧ (c.doConversation lib w cq record []).err = none
      ∧ (c.doConversation lib w cq h s).handlerState
          = (payloads.map lib.unmarshal).foldl (applyCall h) s
      ∧ (c.doConversation lib w cq h s).err = none := by
  have key : ∀ {τ : Type} (g : Handler τ) (t : τ),
      readStream lib resp g t = ((payloads.map lib.unmarshal).foldl (applyCall g) t, none) := by
    intro τ g t
    unfold readStream
    rw [hl, scanLoop_events lib g payloads rest t hp]
    simp [hs]
  rw [doConversation_of_roundTrip_ok lib c w cq record [] c1 sent resp hrt,
    doConversation_of_roundTrip_ok lib c w cq h s c1 sent resp hrt, key, key]
  simp [foldl_record]

theorem doConversation_delivers_in_order_witness :
    ((tokenClient.doConversation sampleLib
        (server 200 { lines := [dataLine payloadHi, dataLine payloadBad, doneLine,
                                dataLine payloadEmpty]
                      readErr := some readError } 1000)
        {} record []).handlerState = [(eventHi, none), ({}, some decodeError)])
      ∧ ((tokenClient.doConversation sampleLib
        (server 200 { lines := [dataLine payloadHi, dataLine payloadBad, doneLine,
                                dataLine payloadEmpty]
                      readErr := some readError } 1000)
        {} record []).err = none) :=
  have h := doConversation_delivers_in_order sampleLib tokenClient
    (server 200 { lines := [dataLine payloadHi, dataLine payloadBad, doneLine,
                            dataLine payloadEmpty]
                  readErr := some readError } 1000)
    {} record [] tokenClient [tokenClient.conversationRequest sampleLib {}]
    { StatusCode := 200
      body := { lines := [dataLine payloadHi, dataLine payloadBad, doneLine,
                          dataLine payloadEmpty]
                readErr := some readError } }
    [payloadHi, payloadBad] [dataLine payloadEmpty]
    rfl rfl rfl (by decide)
  ⟨h.1, h.2.2.1⟩

/-- C5. A blank line, or a line without the marker `data: `, causes no handler
call, and a response whose stream has one such line more, at any place, gives
the same handler calls and the same result of `Client.doConversation`. -/
theorem doConversation_ignores_other_lines {σ : Type} (lib : Lib) (c : Client)
    (w w2 : World) (cq : ConversationRequest) (h : Handler σ) (s : σ)
    (c1 : Client) (sent : List Request) (resp resp2 : Response)
    (before after : List (List Char)) (line : List Char)
    (hline : ignorable line)
    (hrt : c.roundTrip lib w cq = (c1, sent, .ok resp))
    (hrt2 : c.roundTrip lib w2 cq = (c1, sent, .ok resp2))
    (hs : resp2.StatusCode = resp.StatusCode)
    (hre : resp2.body.readErr = resp.body.readErr)
    (hl : resp.body.lines = before ++ after)
    (hl2 : resp2.body.lines = before ++ line :: after) :
    delivered lib [line] = []
      ∧ c.doConversation lib w2 cq h s = c.doConversation lib w cq h s
      ∧ (c.doConversation lib w2 cq record []).handlerState
          = (c.doConversation lib w cq record []).handlerState := by
  have key : ∀ {τ : Type} (g : Handler τ) (t : τ),
      readStream lib resp2 g t = readStream lib resp g t := by
    intro τ g t
    unfold readStream
    rw [hs, hre, hl, hl2, scanLoop_insert lib g before after line t hline]
  refine ⟨?_, ?_, ?_⟩
  · unfold delivered
    rw [scanLoop_skip lib record line [] [] hline]
    rfl
  · rw [doConversation_of_roundTrip_ok lib c w2 cq h s c1 sent resp2 hrt2,
      doConversation_of_roundTrip_ok lib c w cq h s c1 sent resp hrt, key]
  · rw [doConversation_of_roundTrip_ok lib c w2 cq record [] c1 sent resp2 hrt2,
      doConversation_of_roundTrip_ok lib c w cq record [] c1 sent resp hrt, key]

theorem doConversation_ignores_other_lines_witness :
    (tokenClient.doConversation sampleLib
        (server 200 { lines := [dataLine payloadHi, "event: ping".toList, doneLine] } 1000)
        {} record []).handlerState
      = (tokenClient.doConversation sampleLib
        (server 200 { lines := [dataLine payloadHi, doneLine] } 1000)
        {} record []).handlerState :=
  (doConversation_ignores_other_lines sampleLib tokenClient
    (server 200 { lines := [dataLine payloadHi, doneLine] } 1000)
    (server 200 { lines := [dataLine payloadHi, "event: ping".toList, doneLine] } 1000)
    {} record [] tokenClient [tokenClient.conversationRequest sampleLib {}]
    { StatusCode := 200, body := { lines := [dataLine payloadHi, doneLine] } }
    { StatusCode := 200
      body := { lines := [dataLine payloadHi, "event: ping".toList, doneLine] } }
    [dataLine payloadHi] [doneLine] "event: ping".toList
    (by decide) rfl rfl rfl rfl rfl rfl).2.2

/-- C10. A response stream that ends without a read failure makes
`Client.doConversation` return no error, and the call has the same outcome,
handler calls included, as on the same stream with a `data: [DONE]` line
appended; `Prompt.streamNext` has the same outcome on both, so it commits the
same state. -/
theorem stream_end_without_done_is_clean {σ : Type} (lib : Lib) (p : Prompt)
    (w w2 : World) (prompt : String) (h : Handler σ) (s : σ)
    (c1 : Client) (sent : List Request) (resp resp2 : Response)
    (hrt : p.client.roundTrip lib w (p.request w prompt) = (c1, sent, .ok resp))
    (hrt2 : p.client.roundTrip lib w2 (p.request w2 prompt) = (c1, sent, .ok resp2))
    (hs : resp.StatusCode = StatusOK) (hs2 : resp2.StatusCode = StatusOK)
    (hre : resp.body.readErr = none)
    (hl2 : resp2.body.lines = resp.body.lines ++ [doneLine]) :
    (p.client.doConversation lib w (p.request w prompt) h s).err = none
      ∧ p.client.doConversation lib w (p.request w prompt) h s
          = p.client.doConversation lib w2 (p.request w2 prompt) h s
      ∧ (p.client.doConversation lib w (p.request w prompt) record []).handlerState
          = (p.client.doConversation lib w2 (p.request w2 prompt) record []).handlerState
      ∧ p.streamNext lib w prompt h s = p.streamNext lib w2 prompt h s := by
  have key : ∀ {τ : Type} (g : Handler τ) (t : τ),
      readStream lib resp g t = ((delivered lib resp.body.lines).foldl (applyCall g) t, none)
        ∧ readStream lib resp2 g t = readStream lib resp g t := by
    intro τ g t
    simp [readStream_eq, hs, hs2, hre, hl2, delivered_append_done, sawDone_append_done]
  refine ⟨?_, ?_, ?_, ?_⟩
  · rw [doConversation_of_roundTrip_ok lib _ w _ h s c1 sent resp hrt, (key h s).1]
  · rw [doConversation_of_roundTrip_ok lib _ w _ h s c1 sent resp hrt,
      doConversation_of_roundTrip_ok lib _ w2 _ h s c1 sent resp2 hrt2, (key h s).2]
  · rw [doConversation_of_roundTrip_ok lib _ w _ record [] c1 sent resp hrt,
      doConversation_of_roundTrip_ok lib _ w2 _ record [] c1 sent resp2 hrt2, (key record []).2]
  · rw [streamNext_of_roundTrip_ok lib p w prompt h s c1 sent resp hrt,
      streamNext_of_roundTrip_ok lib p w2 prompt h s c1 sent resp2 hrt2]
    simp [hs, hs2, hre, hl2, delivered_append_done, sawDone_append_done]

theorem stream_end_without_done_is_clean_witness :
    ((freshPrompt.streamNext sampleLib
        (server 200 { lines := [dataLine payloadHi] } 1000) "hello" record []).prompt.current
      = { ConversationID := "c1", ParentMessageID := "m1" })
      ∧ freshPrompt.streamNext sampleLib
          (server 200 { lines := [dataLine payloadHi] } 1000) "hello" record []
        = freshPrompt.streamNext sampleLib
          (server 200 { lines := [dataLine payloadHi, doneLine] } 1000) "hello" record [] :=
  ⟨by decide,
    (stream_end_without_done_is_clean sampleLib freshPrompt
      (server 200 { lines := [dataLine payloadHi] } 1000)
      (server 200 { lines := [dataLine payloadHi, doneLine] } 1000)
      "hello" record []
      { freshPrompt.client with accessToken := { value := "token", expires := 2000 } }
      [freshPrompt.client.authRequest sampleLib,
        Client.conversationRequest sampleLib
          { freshPrompt.client with accessToken := { value := "token", expires := 2000 } }
          (freshPrompt.request (server 200 {} 1000) "hello")]
      { StatusCode := 200, body := { lines := [dataLine payloadHi] } }
      { StatusCode := 200, body := { lines := [dataLine payloadHi, doneLine] } }
      rfl rfl rfl rfl rfl rfl).2.2.2⟩

/-- C7. After a turn that `Prompt.streamNext` completes without error and
whose last successfully decoded event is `ev`, the `ConversationRequest` the
next call builds, and sends, has `ev`'s conversation id as `ConversationID` and
`ev`'s message id as `ParentMessageID`; on a fresh prompt the request has an
empty `ConversationID` and the `ParentMessageID` that `NewPrompt` generated. -/
theorem next_request_continues_conversation {σ τ : Type} (lib : Lib) (p : Prompt)
    (w : World) (prompt : String) (h : Handler σ) (s : σ)
    (w2 : World) (prompt2 : String) (h2 : Handler τ) (s2 : τ)
    (ev : ConversationResponse)
    (hok : (p.streamNext lib w prompt h s).err = none)
    (hlast : ((p.streamNext lib w prompt record []).handlerState.filter
        (fun call => call.2 = none)).getLast? = some (ev, none)) :
    ((p.streamNext lib w prompt h s).prompt.request w2 prompt2).ConversationID
        = ev.ConversationID
      ∧ ((p.streamNext lib w prompt h s).prompt.request w2 prompt2).ParentMessageID
        = ev.Message.ID
      ∧ (∀ r ∈ ((p.streamNext lib w prompt h s).prompt.streamNext lib w2 prompt2 h2 s2).sent,
          ∀ cq, r.body = some cq →
            cq.ConversationID = ev.ConversationID ∧ cq.ParentMessageID = ev.Message.ID)
      ∧ (∀ (client : Client) (w0 : World),
          ((NewPrompt client w0).request w2 prompt2).ConversationID = ""
            ∧ ((NewPrompt client w0).request w2 prompt2).ParentMessageID = w0.uuid) := by
  have hcur : (p.streamNext lib w prompt h s).prompt.current = stateOf ev := by
    rcases hrt : p.client.roundTrip lib w (p.request w prompt) with ⟨c1, sent, e | resp⟩
    · rw [streamNext_of_roundTrip_error lib p w prompt h s c1 sent e hrt] at hok
      exact absurd hok (by simp)
    · rw [streamNext_of_roundTrip_ok lib p w prompt h s c1 sent resp hrt] at hok ⊢
      rw [streamNext_of_roundTrip_ok lib p w prompt record [] c1 sent resp hrt] at hlast
      by_cases hs : resp.StatusCode ≠ StatusOK
      · simp [hs] at hlast
      · cases hd : sawDone lib resp.body.lines <;> cases hre : resp.body.readErr <;>
          cases hle : lastErr (delivered lib resp.body.lines) <;>
          simp_all [foldl_record, lastGood]
  have hreq : ∀ q : ConversationRequest,
      q = (p.streamNext lib w prompt h s).prompt.request w2 prompt2 →
      q.ConversationID = ev.ConversationID ∧ q.ParentMessageID = ev.Message.ID := by
    intro q hq
    subst hq
    simp [Prompt.request, hcur, stateOf]
  refine ⟨(hreq _ rfl).1, (hreq _ rfl).2, ?_, fun client w0 => ⟨rfl, rfl⟩⟩
  intro r hr cq hcq
  rw [streamNext_sent] at hr
  exact hreq cq (roundTrip_sent_body lib _ w2 _ r hr cq hcq)

theorem next_request_continues_conversation_witness :
    ((freshPrompt.streamNext sampleLib
          (server 200 { lines := [dataLine payloadHi, doneLine] } 1000) "hello"
          record []).prompt.request (server 200 {} 1001) "again").ConversationID = "c1"
      ∧ ((freshPrompt.streamNext sampleLib
          (server 200 { lines := [dataLine payloadHi, doneLine] } 1000) "hello"
          record []).prompt.request (server 200 {} 1001) "again").ParentMessageID = "m1" :=
  have h := next_request_continues_conversation sampleLib freshPrompt
    (server 200 { lines := [dataLine payloadHi, doneLine] } 1000) "hello" record []
    (server 200 {} 1001) "again" record [] eventHi (by decide) (by decide)
  ⟨h.1, h.2.1⟩

/-- C8. When the request of a turn comes back with status 200, the stream ends
cleanly (at a `[DONE]` line, or at its end without a read failure) and every
payload line that is decoded decodes without error, `Prompt.Next` returns
`(t, nil)` with `t` the first content part of the last event whose parts list
is non-empty (the empty string when there is none), and the state becomes the
conversation id and message id of the last event (it stays when there is no
event); the former state becomes the previous one. -/
theorem Next_on_clean_turn (lib : Lib) (p : Prompt) (w : World) (prompt : String)
    (c1 : Client) (sent : List Request) (resp : Response)
    (hrt : p.client.roundTrip lib w (p.request w prompt) = (c1, sent, .ok resp))
    (hs : resp.StatusCode = StatusOK)
    (hclean : sawDone lib resp.body.lines = true ∨ resp.body.readErr = none)
    (hdec : ∀ call ∈ delivered lib resp.body.lines, call.2 = none) :
    p.Next lib w prompt
      = ({ client := c1
           previous := some p.current
           current := match (delivered lib resp.body.lines).getLast? with
             | some call => stateOf call.1
             | none => p.current },
          sent, replyText (delivered lib resp.body.lines), none) := by
  have herr : (if sawDone lib resp.body.lines = true then none else resp.body.readErr)
      = none := by
    rcases hclean with hd | hre
    · simp [hd]
    · simp [hre]
  unfold Prompt.Next
  rw [streamNext_of_roundTrip_ok lib p w prompt nextHandler "" c1 sent resp hrt]
  simp only [hs, ne_eq, not_true_eq_false, if_false, herr, lastErr_of_all_good _ hdec,
    lastGood_of_all_good _ _ hdec, foldl_nextHandler _ hdec]

theorem Next_on_clean_turn_witness :
    freshPrompt.Next sampleLib
        (server 200 { lines := [dataLine payloadHi, doneLine] } 1000) "hello"
      = ({ client := { NewClient "session" [] with
                         accessToken := { value := "token", expires := 2000 } }
           previous := some freshPrompt.current
           current := { ConversationID := "c1", ParentMessageID := "m1" } },
          [freshPrompt.client.authRequest sampleLib,
            Client.conversationRequest sampleLib
              { freshPrompt.client with accessToken := { value := "token", expires := 2000 } }
              (freshPrompt.request (server 200 {} 1000) "hello")],
          "hi", none) :=
  Next_on_clean_turn sampleLib freshPrompt
    (server 200 { lines := [dataLine payloadHi, doneLine] } 1000) "hello"
    { freshPrompt.client with accessToken := { value := "token", expires := 2000 } }
    [freshPrompt.client.authRequest sampleLib,
      Client.conversationRequest sampleLib
        { freshPrompt.client with accessToken := { value := "token", expires := 2000 } }
        (freshPrompt.request (server 200 {} 1000) "hello")]
    { StatusCode := 200, body := { lines := [dataLine payloadHi, doneLine] } }
    rfl rfl (Or.inl (by decide)) (by decide)

/-- C6, as the code has it. `Client.authIfExpired` calls `auth` exactly when the
held token's value is empty or the clock is strictly after the expiry; in
every other case, the instant of expiry included, it sends nothing, keeps the
client and returns no error. -/
theorem authIfExpired_refreshes_iff (lib : Lib) (c : Client) (w : World) :
    ((c.accessToken.value = "" ∨ c.accessToken.expires < w.now)
        ↔ c.authIfExpired lib w = c.auth lib w)
      ∧ (¬ (c.accessToken.value = "" ∨ c.accessToken.expires < w.now)
        → c.authIfExpired lib w = { client := c, sent := [], err := none }) := by
  by_cases hc : c.accessToken.value = "" ∨ c.accessToken.expires < w.now
  · have h1 : c.authIfExpired lib w = c.auth lib w := authIfExpired_of_due lib c w hc
    exact ⟨⟨fun _ => h1, fun _ => hc⟩, fun hn => absurd hc hn⟩
  · have h2 : c.authIfExpired lib w = { client := c, sent := [], err := none } :=
      authIfExpired_of_not_due lib c w hc
    refine ⟨⟨fun h => absurd h hc, fun h => ?_⟩, fun _ => h2⟩
    rw [h2] at h
    exact absurd h.symm (auth_ne_idle lib c w)

theorem authIfExpired_refreshes_iff_witness :
    tokenClient.authIfExpired sampleLib (server 200 {} 2000)
      = { client := tokenClient, sent := [], err := none } :=
  (authIfExpired_refreshes_iff sampleLib tokenClient (server 200 {} 2000)).2 (by decide)

/-- C6 as stated fails at the instant of expiry: the token is not empty and
the clock equals the expiry, yet `Client.authIfExpired` performs no refresh. -/
theorem authIfExpired_at_expiry_instant :
    ¬ ((tokenClient.accessToken.value = ""
          ∨ tokenClient.accessToken.expires ≤ (server 200 {} 2000).now)
        ↔ tokenClient.authIfExpired sampleLib (server 200 {} 2000)
            = tokenClient.auth sampleLib (server 200 {} 2000)) := by
  decide

/-- C9, as the code has it. When the authentication exchange answers with a
status other than 200, `Client.Auth` returns the error carrying that status and
leaves the client, its access token included, as it was; a later
`Client.Conversation` on that client with auto-refresh on, against the same
answer, returns that error with only the authentication request sent and the
handler not called, provided the held token is empty (as on a fresh client) or
expired at that time. -/
theorem failed_auth_blocks_conversation {σ : Type} (lib : Lib) (c : Client)
    (w w2 : World) (cq : ConversationRequest) (h : Handler σ) (s : σ) (resp : Response)
    (hn : lib.newRequestErr "GET" (lib.joinPath c.apiAddr ["auth", "session"]) = none)
    (hdo : w.httpDo (c.authRequest lib) = .ok resp)
    (hst : resp.StatusCode ≠ StatusOK) :
    c.Auth lib w
        = { client := c, sent := [c.authRequest lib]
            err := some (Error.unexpectedStatusCode resp.StatusCode) }
      ∧ (c.autoRefresh = true →
          w2.httpDo (c.authRequest lib) = .ok resp →
          (c.accessToken.value = "" ∨ c.accessToken.expires < w2.now) →
          (c.Auth lib w).client.Conversation lib w2 cq h s
            = { client := c, sent := [c.authRequest lib], handlerState := s
                err := some (Error.unexpectedStatusCode resp.StatusCode) }) := by
  have hAuth := auth_of_status lib c w resp hn hdo hst
  refine ⟨hAuth, fun hauto hdo2 hexp => ?_⟩
  have hif : c.authIfExpired lib w2 = c.auth lib w2 := authIfExpired_of_due lib c w2 hexp
  have hrt : c.roundTrip lib w2 cq
      = (c, [c.authRequest lib], .error (Error.unexpectedStatusCode resp.StatusCode)) := by
    simp [Client.roundTrip, hauto, hif, auth_of_status lib c w2 resp hn hdo2 hst]
  simp only [Client.Auth, hAuth, Client.Conversation]
  exact doConversation_of_roundTrip_error lib c w2 cq h s c _ _ hrt

theorem failed_auth_blocks_conversation_witness :
    (NewClient "session" []).Auth sampleLib (rejectingServer 1000)
        = { client := NewClient "session" []
            sent := [(NewClient "session" []).authRequest sampleLib]
            err := some (Error.unexpectedStatusCode 401) }
      ∧ (((NewClient "session" []).Auth sampleLib (rejectingServer 1000)).client.Conversation
            sampleLib (rejectingServer 1001) {} record []).sent
          = [(NewClient "session" []).authRequest sampleLib]
      ∧ (((NewClient "session" []).Auth sampleLib (rejectingServer 1000)).client.Conversation
            sampleLib (rejectingServer 1001) {} record []).handlerState = [] :=
  have h := failed_auth_blocks_conversation sampleLib (NewClient "session" [])
    (rejectingServer 1000) (rejectingServer 1001) {} record []
    { StatusCode := 401 } rfl rfl (by decide)
  ⟨h.1, congrArg ConvResult.sent (h.2 rfl rfl (Or.inl rfl)),
    congrArg ConvResult.handlerState (h.2 rfl rfl (Or.inl rfl))⟩

/-- C9 as stated fails on a client that holds a token that is still good: the
authentication exchange answers 401 and `Client.Auth` returns that error, the
token stays, and the later `Client.Conversation` with auto-refresh on sends the
conversation request, calls the handler and returns no error. -/
theorem conversation_after_failed_auth_with_good_token :
    tokenClient.autoRefresh = true
      ∧ tokenClient.Auth sampleLib (rejectingServer 1000)
        = { client := tokenClient, sent := [tokenClient.authRequest sampleLib]
            err := some (Error.unexpectedStatusCode 401) }
      ∧ ((tokenClient.Auth sampleLib (rejectingServer 1000)).client.Conversation
            sampleLib (rejectingServer 1001) {} record []).err = none
      ∧ ((tokenClient.Auth sampleLib (rejectingServer 1000)).client.Conversation
            sampleLib (rejectingServer 1001) {} record []).sent
          = [tokenClient.conversationRequest sampleLib {}]
      ∧ ((tokenClient.Auth sampleLib (rejectingServer 1000)).client.Conversation
            sampleLib (rejectingServer 1001) {} record []).handlerState
          = [(eventHi, none)] := by
  decide

/-- C1 at a stream whose first payload line fails to decode and whose second
decodes: the handler observes the decode error, and `Prompt.streamNext` still
returns no error and commits the second event's state. -/
theorem streamNext_commits_after_decode_error :
    (freshPrompt.streamNext sampleLib
        (server 200 { lines := [dataLine payloadBad, dataLine payloadHi, doneLine] } 1000)
        "hello" record []).handlerState = [({}, some decodeError), (eventHi, none)]
      ∧ (freshPrompt.streamNext sampleLib
        (server 200 { lines := [dataLine payloadBad, dataLine payloadHi, doneLine] } 1000)
        "hello" record []).err = none
      ∧ (freshPrompt.streamNext sampleLib
        (server 200 { lines := [dataLine payloadBad, dataLine payloadHi, doneLine] } 1000)
        "hello" record []).prompt.current = { ConversationID := "c1", ParentMessageID := "m1" }
      ∧ (freshPrompt.streamNext sampleLib
        (server 200 { lines := [dataLine payloadBad, dataLine payloadHi, doneLine] } 1000)
        "hello" record []).prompt.current ≠ freshPrompt.current := by
  decide

/-- C2, as the code has it by design. On a response with status 200:
when the stream ends cleanly (at a `[DONE]` line, or at its end without a read
failure) and the last payload line that is decoded fails to parse while every
one before it parses, `Prompt.streamNext`, and so `Prompt.Next`, returns that
line's decode error and leaves the conversation state as it was; when the read
of the stream fails before a `[DONE]` line, they return the read error,
whatever the payload lines were, and again leave the state as it was. -/
theorem streamNext_returns_decode_error {σ : Type} (lib : Lib) (p : Prompt) (w : World)
    (prompt : String) (h : Handler σ) (s : σ)
    (c1 : Client) (sent : List Request) (resp : Response)
    (hrt : p.client.roundTrip lib w (p.request w prompt) = (c1, sent, .ok resp))
    (hs : resp.StatusCode = StatusOK) :
    (∀ (good : List (ConversationResponse × Option Error))
        (bad : ConversationResponse) (e : Error),
        (sawDone lib resp.body.lines = true ∨ resp.body.readErr = none) →
        delivered lib resp.body.lines = good ++ [(bad, some e)] →
        (∀ call ∈ good, call.2 = none) →
        (p.streamNext lib w prompt h s).err = some e
          ∧ (p.streamNext lib w prompt h s).prompt.current = p.current
          ∧ (p.streamNext lib w prompt h s).prompt.previous = p.previous
          ∧ (p.Next lib w prompt).2.2 = ("", some e)
          ∧ (p.Next lib w prompt).1.current = p.current)
      ∧ (∀ (re : Error),
        sawDone lib resp.body.lines = false →
        resp.body.readErr = some re →
        (p.streamNext lib w prompt h s).err = some re
          ∧ (p.streamNext lib w prompt h s).prompt.current = p.current
          ∧ (p.streamNext lib w prompt h s).prompt.previous = p.previous
          ∧ (p.Next lib w prompt).2.2 = ("", some re)
          ∧ (p.Next lib w prompt).1.current = p.current) := by
  have fin : ∀ (x : Error),
      (∀ {τ : Type} (g : Handler τ) (t : τ),
        p.streamNext lib w prompt g t
          = { prompt := { p with client := c1 }, sent := sent
              handlerState := (delivered lib resp.body.lines).foldl (applyCall g) t
              err := some x }) →
      (p.streamNext lib w prompt h s).err = some x
        ∧ (p.streamNext lib w prompt h s).prompt.current = p.current
        ∧ (p.streamNext lib w prompt h s).prompt.previous = p.previous
        ∧ (p.Next lib w prompt).2.2 = ("", some x)
        ∧ (p.Next lib w prompt).1.current = p.current := by
    intro x key
    refine ⟨?_, ?_, ?_, ?_, ?_⟩
    · rw [key]
    · rw [key]
    · rw [key]
    · simp only [Prompt.Next, key]
    · simp only [Prompt.Next, key]
  constructor
  · intro good bad e hclean hcalls _hgood
    have herr : (if sawDone lib resp.body.lines = true then none else resp.body.readErr)
        = none := by
      rcases hclean with hd | hre
      · simp [hd]
      · simp [hre]
    have hle : lastErr (delivered lib resp.body.lines) = some e := by
      simp [hcalls, lastErr]
    apply fin e
    intro τ g t
    rw [streamNext_of_roundTrip_ok lib p w prompt g t c1 sent resp hrt]
    simp only [hs, ne_eq, not_true_eq_false, if_false, herr, hle]
  · intro re hd hre
    apply fin re
    intro τ g t
    rw [streamNext_of_roundTrip_ok lib p w prompt g t c1 sent resp hrt]
    simp [hs, hd, hre]

theorem streamNext_returns_decode_error_witness :
    ((freshPrompt.streamNext sampleLib
        (server 200 { lines := [dataLine payloadHi, dataLine payloadBad, doneLine] } 1000)
        "hello" record []).err = some decodeError
      ∧ (freshPrompt.streamNext sampleLib
        (server 200 { lines := [dataLine payloadHi, dataLine payloadBad, doneLine] } 1000)
        "hello" record []).prompt.current = freshPrompt.current)
      ∧ ((freshPrompt.streamNext sampleLib
        (server 200 { lines := [dataLine payloadHi, dataLine payloadBad]
                      readErr := some readError } 1000)
        "hello" record []).err = some readError
      ∧ (freshPrompt.streamNext sampleLib
        (server 200 { lines := [dataLine payloadHi, dataLine payloadBad]
                      readErr := some readError } 1000)
        "hello" record []).prompt.current = freshPrompt.current) :=
  have h1 := (streamNext_returns_decode_error sampleLib freshPrompt
    (server 200 { lines := [dataLine payloadHi, dataLine payloadBad, doneLine] } 1000)
    "hello" record []
    { freshPrompt.client with accessToken := { value := "token", expires := 2000 } }
    [freshPrompt.client.authRequest sampleLib,
      Client.conversationRequest sampleLib
        { freshPrompt.client with accessToken := { value := "token", expires := 2000 } }
        (freshPrompt.request (server 200 {} 1000) "hello")]
    { StatusCode := 200
      body := { lines := [dataLine payloadHi, dataLine payloadBad, doneLine] } }
    rfl rfl).1 [(eventHi, none)] {} decodeError
    (Or.inl (by decide)) (by decide) (by decide)
  have h2 := (streamNext_returns_decode_error sampleLib freshPrompt
    (server 200 { lines := [dataLine payloadHi, dataLine payloadBad]
                  readErr := some readError } 1000)
    "hello" record []
    { freshPrompt.client with accessToken := { value := "token", expires := 2000 } }
    [freshPrompt.client.authRequest sampleLib,
      Client.conversationRequest sampleLib
        { freshPrompt.client with accessToken := { value := "token", expires := 2000 } }
        (freshPrompt.request (server 200 {} 1000) "hello")]
    { StatusCode := 200
      body := { lines := [dataLine payloadHi, dataLine payloadBad]
                readErr := some readError } }
    rfl rfl).2 readError (by decide) rfl
  ⟨⟨h1.1, h1.2.1⟩, ⟨h2.1, h2.2.1⟩⟩

/-- C2 as stated fails when the read of the stream fails after a payload line
that does not parse: the handler observes the decode error, and
`Prompt.streamNext` returns the read error, not the decode error. -/
theorem streamNext_read_error_before_decode_error :
    (freshPrompt.streamNext sampleLib
        (server 200 { lines := [dataLine payloadBad], readErr := some readError } 1000)
        "hello" record []).handlerState = [({}, some decodeError)]
      ∧ (freshPrompt.streamNext sampleLib
        (server 200 { lines := [dataLine payloadBad], readErr := some readError } 1000)
        "hello" record []).err = some readError
      ∧ (freshPrompt.streamNext sampleLib
        (server 200 { lines := [dataLine payloadBad], readErr := some readError } 1000)
        "hello" record []).err ≠ some decodeError := by
  decide

end chatgpt
